import Mathlib

/-!
Verification of the transitive dependency resolver (pex draft).

This file shallowly embeds the parts of the source that the claims touch:
`pex/resolver.py` (ResolvableSet, Resolver), `pex/iterator.py` (Iterator),
`pex/resolvable.py` (Resolvable registry), `pex/requirements.py`
(RequirementsTxt), `pex/pep426.py` (marker evaluator) and `pex/http.py`
(Context.fetch).  Code of the repository that is not shipped under src/
(`pex/package.py`, `pex/fetcher.py`, `pex/base.py`, `pkg_resources`) is
modelled from the specification where noted.
-/

namespace Pex

/-- Package variants.  Modelled from the spec: `pex/package.py` is not under
src/; the spec gives three variants {Source, Egg, Wheel} parsed from filename
suffixes. -/
inductive Variant
  | source
  | egg
  | wheel
deriving DecidableEq

/-- Comparison operator of a version specifier of a `Requirement`.  Modelled
from the spec (`pkg_resources.Requirement` is third-party). -/
inductive SpecOp
  | eq
  | ne
  | lt
  | le
  | gt
  | ge
deriving DecidableEq

/-- Modelled from the spec: a Requirement is "a project name plus a set of
version specifiers and an optional set of extras".  Versions are modelled as
naturals; a specifier is an operator together with a version. -/
structure Requirement where
  name : String
  specs : List (SpecOp × Nat)
  extras : List String
deriving DecidableEq

/-- Modelled from the spec: a Package exposes `name`, `version`, a variant,
and a `local`/`remote` predicate.  All three package classes carry these. -/
structure Package where
  name : String
  version : Nat
  variant : Variant
  isLocal : Bool
deriving DecidableEq

/-- `package.local` (spec: "local/remote predicate"). -/
def Package.local' (p : Package) : Bool := p.isLocal

/-- `package.remote`: negation of `local`. -/
def Package.remote (p : Package) : Bool := !p.isLocal

/-- Modelled from the spec: "all comparisons use a canonicalized key
(lowercase, non-alphanumerics → `-`, collapsed)".  `sep` records whether the
previous emitted character was the separator, so separator runs collapse. -/
def canonChars : List Char → Bool → List Char
  | [], _ => []
  | c :: rest, sep =>
      if c.isAlphanum then c.toLower :: canonChars rest false
      else if sep then canonChars rest true
      else '-' :: canonChars rest true

/-- Canonical project-name key. -/
def canonicalKey (s : String) : String := String.mk (canonChars s.data true)

/-- One version specifier applied to a version. -/
def specHolds (version : Nat) : SpecOp × Nat → Bool
  | (SpecOp.eq, v) => version == v
  | (SpecOp.ne, v) => version != v
  | (SpecOp.lt, v) => version < v
  | (SpecOp.le, v) => version ≤ v
  | (SpecOp.gt, v) => v < version
  | (SpecOp.ge, v) => v ≤ version

/-- Modelled from the spec: `Package.satisfies(req)` is true iff the canonical
names match and the version meets the specifier set. -/
def Package.satisfies (p : Package) (req : Requirement) : Bool :=
  canonicalKey p.name == canonicalKey req.name && req.specs.all (specHolds p.version)

/-- `requirement_is_exact` from `pex/requirements.py` (also in the missing
`pex/base.py`): true iff `specs` is a single `('==', v)` pair. -/
def requirement_is_exact (req : Requirement) : Bool :=
  match req.specs with
  | [(op, _)] => op == SpecOp.eq
  | _ => false

/-! ### `Resolver.filter_packages_by_ttl` (pex/resolver.py lines 210-214)

`os.path.getmtime(package.path)` is a filesystem read; it is supplied as the
oracle `mtime : Package → Nat`.  The Python boolean expression is
`package.remote or package.local and (now - mtime) < ttl`; `and` binds
tighter than `or` in Python, which the parenthesisation below mirrors. -/

def filter_packages_by_ttl (mtime : Package → Nat) (packages : List Package)
    (ttl : Nat) (now : Nat) : List Package :=
  packages.filter fun p =>
    p.remote || (p.local' && decide ((now : Int) - (mtime p : Int) < (ttl : Int)))

/-! ### Resolvables (pex/resolvable.py)

Three concrete forms.  `ResolvableRepository` carries no state (its
constructor is never reached: `from_string` always raises).  The other two
wrap a `Package` and a `Requirement` respectively. -/

inductive Resolvable
  | repository
  | package (p : Package)
  | requirement (r : Requirement)
deriving DecidableEq

/-- A Python value returned by a `packages` implementation.  The three
implementations in `pex/resolvable.py` do not agree on the returned type:
`ResolvableRepository.packages` returns the list `[]`,
`ResolvableRequirement.packages` returns `list(finder.iter(req))`, but
`ResolvablePackage.packages` returns `self.package` — the bare package
object, not a list.  Dynamic typing hides this; the embedding keeps both
shapes. -/
inductive PyValue
  | list (ps : List Package)
  | bare (p : Package)
deriving DecidableEq

/-- Discriminator: is the value an actual list? -/
def PyValue.isList : PyValue → Bool
  | PyValue.list _ => true
  | PyValue.bare _ => false

/-- Python truthiness of a `packages` result: a list is truthy iff non-empty,
a bare object is always truthy. -/
def PyValue.truthy : PyValue → Bool
  | PyValue.list ps => !ps.isEmpty
  | PyValue.bare _ => true

/-- `Resolvable.packages(finder)` from pex/resolvable.py.  The finder is the
iterator pipeline, abstracted as the function it induces from a requirement
to the list of packages its `iter` yields:
* `ResolvableRepository.packages` (line 84) returns `[]`;
* `ResolvablePackage.packages` (lines 108-109) returns `self.package`, the
  bare package — the finder is not consulted;
* `ResolvableRequirement.packages` (lines 143-144) returns
  `list(finder.iter(self.requirement))`. -/
def Resolvable.packagesOf (finder : Requirement → List Package) :
    Resolvable → PyValue
  | Resolvable.repository => PyValue.list []
  | Resolvable.package p => PyValue.bare p
  | Resolvable.requirement r => PyValue.list (finder r)

/-- `resolvable.exact` (pex/resolvable.py lines 90-92, 115-117, 150-152). -/
def Resolvable.exact : Resolvable → Bool
  | Resolvable.repository => true
  | Resolvable.package _ => true
  | Resolvable.requirement r => requirement_is_exact r

/-- Errors surfaced by the embedded Python code.  `typeErr`, `indexErr`,
`attrErr`, `nameErr` and `unboundLocal` stand for Python's TypeError,
IndexError, AttributeError, NameError and UnboundLocalError. -/
inductive PyErr
  | invalidRequirement
  | unsatisfiable
  | ambiguous
  | untranslateable
  | unsupportedLine
  | typeErr
  | indexErr
  | attrErr
  | nameErr
  | unboundLocal
  | outOfFuel
deriving DecidableEq

/-- `resolvable.name`.  `ResolvableRepository.name` executes
`raise NotImplemented`; `NotImplemented` is not an exception class, so Python
raises a TypeError there.  The other two forms return the package name and
the requirement key (canonicalized project name). -/
def Resolvable.nameOf : Resolvable → Except PyErr String
  | Resolvable.repository => Except.error PyErr.typeErr
  | Resolvable.package p => Except.ok p.name
  | Resolvable.requirement r => Except.ok (canonicalKey r.name)

/-! ### The Resolvable registry (pex/resolvable.py lines 20-37, 164-166)

`Package.from_href` (missing pex/package.py) and `Requirement.parse`
(third-party pkg_resources, reached through `maybe_requirement`) are
abstracted as partial parsers `pkgParse` and `reqParse`; `none` models the
paths on which `Resolvable.get`'s registry loop sees `InvalidRequirement`. -/

/-- The VCS prefixes of `ResolvableRepository.COMPATIBLE_VCS`. -/
def compatibleVcs : List String := ["git", "svn", "hg", "bzr"]

/-- `a.startswith(b)` on character lists (structural, so proofs can evaluate
it). -/
def listStarts : List Char → List Char → Bool
  | _, [] => true
  | [], _ :: _ => false
  | c :: cs, d :: ds => c == d && listStarts cs ds

/-- `s.startswith(t)` for strings. -/
def strStarts (s t : String) : Bool := listStarts s.data t.data

/-- Does the string carry a `git+`/`svn+`/`hg+`/`bzr+` prefix? -/
def hasVcsPre (s : String) : Bool :=
  compatibleVcs.any fun vcs => strStarts s (vcs ++ "+")

/-- `ResolvableRepository.from_string` (lines 75-81): when the string has a
VCS prefix the body only runs `pass` ("further delegate"), then control falls
through to the unconditional `raise InvalidRequirement`.  Every input fails. -/
def resolvableRepositoryFromString (s : String) : Except PyErr Resolvable :=
  if hasVcsPre s then Except.error PyErr.invalidRequirement
  else Except.error PyErr.invalidRequirement

/-- `ResolvablePackage.from_string` (lines 98-103): `Package.from_href`, with
`None` turned into `InvalidRequirement`. -/
def resolvablePackageFromString (pkgParse : String → Option Package)
    (s : String) : Except PyErr Resolvable :=
  match pkgParse s with
  | some p => Except.ok (Resolvable.package p)
  | none => Except.error PyErr.invalidRequirement

/-- `ResolvableRequirement.from_string` (lines 129-135): `maybe_requirement`
(which for a string argument is `Requirement.parse`), with `ValueError`
turned into `InvalidRequirement`. -/
def resolvableRequirementFromString (reqParse : String → Option Requirement)
    (s : String) : Except PyErr Resolvable :=
  match reqParse s with
  | some r => Except.ok (Resolvable.requirement r)
  | none => Except.error PyErr.invalidRequirement

/-- The registry in registration order (lines 164-166):
`ResolvableRepository`, then `ResolvablePackage`, then
`ResolvableRequirement`. -/
def resolvableRegistry (pkgParse : String → Option Package)
    (reqParse : String → Option Requirement) :
    List (String → Except PyErr Resolvable) :=
  [resolvableRepositoryFromString,
   resolvablePackageFromString pkgParse,
   resolvableRequirementFromString reqParse]

/-- The loop of `Resolvable.get`: try each registered `from_string`, return
the first success, swallow `InvalidRequirement` and continue. -/
def registryFirst (s : String) :
    List (String → Except PyErr Resolvable) → Except PyErr Resolvable
  | [] => Except.error PyErr.invalidRequirement
  | impl :: rest =>
      match impl s with
      | Except.ok r => Except.ok r
      | Except.error _ => registryFirst s rest

/-- `Resolvable.get` (pex/resolvable.py lines 26-37): first registered form
that parses; falling through raises `InvalidRequirement`. -/
def Resolvable.get (pkgParse : String → Option Package)
    (reqParse : String → Option Requirement) (s : String) :
    Except PyErr Resolvable :=
  registryFirst s (resolvableRegistry pkgParse reqParse)

end Pex

namespace Pex

/-- C8: `filter_packages_by_ttl` keeps exactly the remote packages plus the
local packages whose modification time is within the TTL
(`now - mtime < ttl`), preserving the input order (the result is a sublist of
the input). -/
theorem filter_by_ttl_spec (mtime : Package → Nat) (packages : List Package)
    (ttl now : Nat) (h : 0 < ttl) :
    (filter_packages_by_ttl mtime packages ttl now).Sublist packages ∧
      ∀ p : Package, p ∈ filter_packages_by_ttl mtime packages ttl now ↔
        (p ∈ packages ∧
          (p.remote = true ∨
            (p.local' = true ∧ (now : Int) - (mtime p : Int) < (ttl : Int)))) := by
  constructor
  · exact List.filter_sublist _
  · intro p
    simp only [filter_packages_by_ttl, List.mem_filter, Bool.or_eq_true,
      Bool.and_eq_true, decide_eq_true_eq]

/-- Witness for `filter_by_ttl_spec` at a concrete input: one remote package,
one fresh local package, one stale local package; the stale one is dropped. -/
theorem filter_by_ttl_spec_witness :
    (0 : Nat) < 60 ∧
      ((filter_packages_by_ttl (fun p => p.version) [⟨"a", 5, Variant.source, false⟩]
          60 100).Sublist [⟨"a", 5, Variant.source, false⟩] ∧
        ∀ p : Package, p ∈ filter_packages_by_ttl (fun p => p.version)
            [⟨"a", 5, Variant.source, false⟩] 60 100 ↔
          (p ∈ [(⟨"a", 5, Variant.source, false⟩ : Package)] ∧
            (p.remote = true ∨
              (p.local' = true ∧ (100 : Int) - (p.version : Int) < (60 : Int))))) :=
  ⟨by decide, filter_by_ttl_spec (fun p => p.version) _ 60 100 (by decide)⟩

end Pex

namespace Pex

/-- C5: `ResolvablePackage(pkg).packages(iter)` ignores the iterator — any
two finders yield the same result — but it returns the bare package object
(`self.package`, pex/resolvable.py line 109), not the one-element list
`[pkg]` that the spec and the abstract method's docstring ("an iterable of
Package objects") promise: `isList` of the result is `false`. -/
theorem resolvable_package_packages_bare (p : Package)
    (finder finder' : Requirement → List Package) :
    (Resolvable.package p).packagesOf finder = PyValue.bare p ∧
      (Resolvable.package p).packagesOf finder' =
        (Resolvable.package p).packagesOf finder ∧
      ((Resolvable.package p).packagesOf finder).isList = false ∧
      (PyValue.bare p == PyValue.list [p]) = false := by
  refine ⟨rfl, rfl, rfl, ?_⟩
  simp [BEq.beq]

/-- C6: `Resolvable.get` tries the registered forms in order
(`ResolvableRepository`, `ResolvablePackage`, `ResolvableRequirement`) and
returns the first success.  The VCS form never parses (its `from_string`
falls through to an unconditional raise), so the result is the package parse
when it succeeds, else the requirement parse, else `InvalidRequirement`; in
particular a `git+`/`svn+`/`hg+`/`bzr+` string that is neither a package
href nor a requirement raises `InvalidRequirement`. -/
theorem resolvable_get_dispatch (pkgParse : String → Option Package)
    (reqParse : String → Option Requirement) (s : String) :
    Resolvable.get pkgParse reqParse s =
      (match pkgParse s with
       | some p => Except.ok (Resolvable.package p)
       | none =>
         match reqParse s with
         | some r => Except.ok (Resolvable.requirement r)
         | none => Except.error PyErr.invalidRequirement) ∧
      (hasVcsPre s = true → pkgParse s = none → reqParse s = none →
        Resolvable.get pkgParse reqParse s =
          Except.error PyErr.invalidRequirement) := by
  constructor
  · unfold Resolvable.get resolvableRegistry registryFirst
    unfold resolvableRepositoryFromString
    by_cases h : hasVcsPre s = true
    · simp only [h, if_true]
      cases hp : pkgParse s with
      | some p => simp [registryFirst, resolvablePackageFromString, hp]
      | none =>
          cases hr : reqParse s with
          | some r =>
              simp [registryFirst, resolvablePackageFromString,
                resolvableRequirementFromString, hp, hr]
          | none =>
              simp [registryFirst, resolvablePackageFromString,
                resolvableRequirementFromString, hp, hr]
    · simp only [h, if_false]
      cases hp : pkgParse s with
      | some p => simp [registryFirst, resolvablePackageFromString, hp]
      | none =>
          cases hr : reqParse s with
          | some r =>
              simp [registryFirst, resolvablePackageFromString,
                resolvableRequirementFromString, hp, hr]
          | none =>
              simp [registryFirst, resolvablePackageFromString,
                resolvableRequirementFromString, hp, hr]
  · intro _ hp hr
    unfold Resolvable.get resolvableRegistry registryFirst
    unfold resolvableRepositoryFromString
    simp [registryFirst, resolvablePackageFromString,
      resolvableRequirementFromString, hp, hr]

/-- Witness for `resolvable_get_dispatch`: with parsers that reject
everything, `Resolvable.get "git+https://github.com/wickman/pex"` raises
`InvalidRequirement`. -/
theorem resolvable_get_dispatch_witness :
    Resolvable.get (fun _ => none) (fun _ => none)
        "git+https://github.com/wickman/pex" =
      Except.error PyErr.invalidRequirement :=
  (resolvable_get_dispatch (fun _ => none) (fun _ => none)
      "git+https://github.com/wickman/pex").2 (by decide) rfl rfl

end Pex

namespace Pex

/-! ### The Iterator pipeline (pex/iterator.py)

`Package.from_href` lives in the missing pex/package.py and the crawl is
network I/O, so `iter` is embedded as a function of the crawled href list and
of an arbitrary `fromHref` parser; everything downstream of them
(`_translate_href`'s precedence filter, the `satisfies` filter, `_sort`) is
translated from pex/iterator.py. -/

/-- `Iterator.DEFAULT_PACKAGE_PRECEDENCE` (lines 20-24). -/
def DEFAULT_PACKAGE_PRECEDENCE : List Variant :=
  [Variant.wheel, Variant.egg, Variant.source]

/-- `Iterator.package_type_precedence` (lines 26-32): rank of the package's
variant counted over the reversed precedence tuple (`enumerate(reversed(...))`
with the first `isinstance` hit returned); an unrecognized variant gets
`-1`. -/
def package_type_precedence (p : Package) (precedence : List Variant) : Int :=
  match precedence.reverse.findIdx? (fun t => p.variant == t) with
  | some rank => (rank : Int)
  | none => -1

/-- `Iterator.package_precedence` (lines 34-39): the ranking triple
`(version, type precedence, local)`. -/
def package_precedence (p : Package) (precedence : List Variant) :
    Nat × Int × Bool :=
  (p.version, package_type_precedence p precedence, p.local')

/-- `x <= y` on booleans with Python's `False < True`. -/
def boolLe (x y : Bool) : Bool := !x || y

/-- Lexicographic `<=` on ranking triples, exactly Python's tuple
comparison. -/
def keyLe (a b : Nat × Int × Bool) : Bool :=
  if a.1 = b.1 then
    if a.2.1 = b.2.1 then boolLe a.2.2 b.2.2
    else decide (a.2.1 < b.2.1)
  else decide (a.1 < b.1)

theorem keyLe_iff (a b : Nat × Int × Bool) : keyLe a b = true ↔
    (a.1 < b.1 ∨ (a.1 = b.1 ∧ (a.2.1 < b.2.1 ∨
      (a.2.1 = b.2.1 ∧ (a.2.2 = true → b.2.2 = true))))) := by
  obtain ⟨a1, a2, a3⟩ := a
  obtain ⟨b1, b2, b3⟩ := b
  simp only [keyLe, boolLe]
  split_ifs with h1 h2
  · subst h1; subst h2
    cases a3 <;> cases b3 <;> simp
  · subst h1
    simp [h2, decide_eq_true_eq]
  · simp only [decide_eq_true_eq]
    constructor
    · intro h; exact Or.inl h
    · rintro (h | ⟨h, _⟩)
      · exact h
      · exact absurd h h1

theorem keyLe_total (a b : Nat × Int × Bool) :
    keyLe a b = true ∨ keyLe b a = true := by
  rw [keyLe_iff, keyLe_iff]
  by_cases h3 : a.2.2 = true <;> by_cases h4 : b.2.2 = true <;>
    simp [h3, h4] <;> omega

theorem keyLe_trans (a b c : Nat × Int × Bool) (hab : keyLe a b = true)
    (hbc : keyLe b c = true) : keyLe a c = true := by
  rw [keyLe_iff] at hab hbc ⊢
  by_cases h3 : a.2.2 = true <;> by_cases h4 : b.2.2 = true <;>
    by_cases h5 : c.2.2 = true <;> simp_all <;> omega

/-- `a` ranks at least as high as `b`: the order in which
`sorted(..., reverse=True)` emits packages. -/
def rankGe (precedence : List Variant) (a b : Package) : Prop :=
  keyLe (package_precedence b precedence) (package_precedence a precedence) = true

instance (precedence : List Variant) : DecidableRel (rankGe precedence) :=
  fun a b => inferInstanceAs (Decidable (_ = true))

instance (precedence : List Variant) : IsTotal Package (rankGe precedence) :=
  ⟨fun a b => (keyLe_total _ _).symm.imp id id⟩

instance (precedence : List Variant) : IsTrans Package (rankGe precedence) :=
  ⟨fun _ _ _ hab hbc => keyLe_trans _ _ _ hbc hab⟩

/-- The body of `Iterator._translate_href` past the parse: keep the package
only when its variant appears in the precedence tuple (`None` falls
through). -/
def keepPrecedented (precedence : List Variant) : Option Package → Option Package
  | some p => if precedence.any (fun t => p.variant == t) then some p else none
  | none => none

/-- `Iterator._translate_href` (lines 61-66): parse the href, then restrict
to the precedence tuple. -/
def translate_href (fromHref : String → Option Package)
    (precedence : List Variant) (href : String) : Option Package :=
  keepPrecedented precedence (fromHref href)

/-- `Iterator.iter` (lines 68-85): crawl (given as `crawled`), map
`_translate_href` discarding `None`, filter by `satisfies`, and emit in
`_sort` order — Python's stable `sorted(key=package_precedence,
reverse=True)`, which is exactly stable insertion sort by `rankGe`. -/
def Iterator.iter (fromHref : String → Option Package)
    (precedence : List Variant) (crawled : List String) (req : Requirement) :
    List Package :=
  List.insertionSort (rankGe precedence)
    ((crawled.filterMap (translate_href fromHref precedence)).filter
      (fun p => p.satisfies req))

/-- A concrete catalog parser used by the witness below: the spec's §8
precedence scenario (psutil 0.6.1 as sdist, egg and wheel). -/
def psutilHref : String → Option Package
  | "psutil-src" => some ⟨"psutil", 61, Variant.source, true⟩
  | "psutil-egg" => some ⟨"psutil", 61, Variant.egg, true⟩
  | "psutil-whl" => some ⟨"psutil", 61, Variant.wheel, true⟩
  | _ => none

end Pex

namespace Pex

/-- C3: every package yielded by `Iterator.iter(req)` satisfies `req` and has
a variant in the configured precedence tuple; the output is ranked descending
by the triple `(version, type precedence, local)` (`List.Pairwise rankGe`);
and under the default precedence the wheel variant strictly outranks the egg
variant, which strictly outranks the source variant, at equal version and
locality — hence a wheel is yielded before an egg and an egg before an sdist
of the same version and locality. -/
theorem iterator_iter_ranked (fromHref : String → Option Package)
    (precedence : List Variant) (crawled : List String) (req : Requirement) :
    (∀ p : Package, p ∈ Iterator.iter fromHref precedence crawled req →
        p.satisfies req = true ∧ p.variant ∈ precedence) ∧
      List.Pairwise (rankGe precedence)
        (Iterator.iter fromHref precedence crawled req) ∧
      (∀ (v : Nat) (l : Bool) (n₁ n₂ : String),
        (keyLe (package_precedence ⟨n₂, v, Variant.egg, l⟩ DEFAULT_PACKAGE_PRECEDENCE)
            (package_precedence ⟨n₁, v, Variant.wheel, l⟩ DEFAULT_PACKAGE_PRECEDENCE) = true ∧
          keyLe (package_precedence ⟨n₁, v, Variant.wheel, l⟩ DEFAULT_PACKAGE_PRECEDENCE)
            (package_precedence ⟨n₂, v, Variant.egg, l⟩ DEFAULT_PACKAGE_PRECEDENCE) = false) ∧
        (keyLe (package_precedence ⟨n₂, v, Variant.source, l⟩ DEFAULT_PACKAGE_PRECEDENCE)
            (package_precedence ⟨n₁, v, Variant.egg, l⟩ DEFAULT_PACKAGE_PRECEDENCE) = true ∧
          keyLe (package_precedence ⟨n₁, v, Variant.egg, l⟩ DEFAULT_PACKAGE_PRECEDENCE)
            (package_precedence ⟨n₂, v, Variant.source, l⟩ DEFAULT_PACKAGE_PRECEDENCE) = false)) := by
  refine ⟨?_, ?_, ?_⟩
  · intro p hp
    rw [Iterator.iter, List.mem_insertionSort, List.mem_filter] at hp
    refine ⟨hp.2, ?_⟩
    rcases List.mem_filterMap.mp hp.1 with ⟨href, _, htr⟩
    rw [translate_href] at htr
    cases hfh : fromHref href with
    | none => rw [hfh] at htr; simp [keepPrecedented] at htr
    | some q =>
        rw [hfh] at htr
        by_cases hany : precedence.any (fun t => q.variant == t) = true
        · have hq : q = p := by
            simpa [keepPrecedented, hany] using htr
          rcases List.any_eq_true.mp hany with ⟨t, ht, hbeq⟩
          exact hq ▸ (beq_iff_eq.mp hbeq) ▸ ht
        · simp [keepPrecedented, hany] at htr
  · exact List.sorted_insertionSort _ _
  · intro v l n₁ n₂
    refine ⟨⟨?_, ?_⟩, ?_, ?_⟩ <;>
      simp [package_precedence, package_type_precedence,
        DEFAULT_PACKAGE_PRECEDENCE, keyLe, boolLe, Package.local',
        List.findIdx?]

/-- Witness for `iterator_iter_ranked` at the spec's §8.4 scenario: the
catalog holds an sdist, an egg and a wheel of psutil 0.6.1; under the default
precedence, iteration yields wheel, egg, sdist, and e.g. the wheel satisfies
the requirement and has its variant inside the precedence tuple. -/
theorem iterator_iter_ranked_witness :
    (⟨"psutil", 61, Variant.wheel, true⟩ : Package) ∈
        Iterator.iter psutilHref DEFAULT_PACKAGE_PRECEDENCE
          ["psutil-src", "psutil-egg", "psutil-whl"] ⟨"psutil", [], []⟩ ∧
      ((⟨"psutil", 61, Variant.wheel, true⟩ : Package).satisfies
          ⟨"psutil", [], []⟩ = true ∧
        (⟨"psutil", 61, Variant.wheel, true⟩ : Package).variant ∈
          DEFAULT_PACKAGE_PRECEDENCE) ∧
      Iterator.iter psutilHref DEFAULT_PACKAGE_PRECEDENCE
          ["psutil-src", "psutil-egg", "psutil-whl"] ⟨"psutil", [], []⟩ =
        [⟨"psutil", 61, Variant.wheel, true⟩, ⟨"psutil", 61, Variant.egg, true⟩,
          ⟨"psutil", 61, Variant.source, true⟩] := by
  refine ⟨by decide, ?_, by decide⟩
  exact ((iterator_iter_ranked psutilHref DEFAULT_PACKAGE_PRECEDENCE
      ["psutil-src", "psutil-egg", "psutil-whl"] ⟨"psutil", [], []⟩).1
    ⟨"psutil", 61, Variant.wheel, true⟩ (by decide))

end Pex

namespace Pex

/-! ### ResolvableSet (pex/resolver.py lines 108-134)

resolver.py contains two classes named `ResolvableSet`; the second definition
(lines 108-134) shadows the first and is the one the claims cite.  Its state
is `__resolvables : defaultdict(set)` and `__packages : defaultdict(list)`,
embedded as association lists whose lookup defaults to the empty list.
Python's `set` of resolvables is kept as a list with add-if-absent (the
source relies on `__eq__`/`__hash__`; `ResolvablePackage` defines `__hash__`
but inherits identity `__eq__` — structural equality is used here, which
only makes *more* resolvables compare equal). -/

/-- defaultdict-style lookup: missing keys read as `[]`. -/
def lookupD {α : Type} (l : List (String × List α)) (n : String) : List α :=
  ((l.find? (fun kv => kv.1 == n)).map Prod.snd).getD []

/-- Store a value under a key, keeping insertion order (Python dicts preserve
insertion order). -/
def updateA {α : Type} (l : List (String × List α)) (n : String)
    (v : List α) : List (String × List α) :=
  if (l.find? (fun kv => kv.1 == n)).isSome then
    l.map (fun kv => if kv.1 == n then (n, v) else kv)
  else l ++ [(n, v)]

/-- Rank used to model Python's `sorted` over `Package` objects in `merge`.
The ordering of `Package` lives in the missing pex/package.py; no claim
depends on which total order is used, so packages are ordered by
(name, version, variant, locality). -/
def variantIdx : Variant → Nat
  | Variant.source => 0
  | Variant.egg => 1
  | Variant.wheel => 2

/-- A fixed total comparison standing in for `Package.__lt__`. -/
def pkgLeB (a b : Package) : Bool :=
  if a.name = b.name then
    if a.version = b.version then
      if variantIdx a.variant = variantIdx b.variant then
        boolLe a.isLocal b.isLocal
      else decide (variantIdx a.variant < variantIdx b.variant)
    else decide (a.version < b.version)
  else decide (a.name < b.name)

/-- `sorted(...)` over packages (see `pkgLeB`). -/
def sortedPy (ps : List Package) : List Package :=
  List.insertionSort (fun a b => pkgLeB a b = true) ps

/-- The two dictionaries of the second `ResolvableSet`. -/
structure RSState where
  resolvables : List (String × List Resolvable)
  packages : List (String × List Package)

/-- `ResolvableSet.merge` (lines 117-124): add the resolvable to
`__resolvables[name]`, then set `__packages[name]` to
`sorted(set(packages).intersection(__packages[name]))` and take the raise
branch when that is empty.  There is no first-merge special case: the
intersection is taken against the defaultdict's initial `[]` as well.  The
raise branch never actually constructs `Unsatisfiable`: its message
expression `'\n'.join(map(str, resolvable) for resolvable in
__resolvables[name])` applies `map(str, ...)` to each contributing
`Resolvable` — not iterable (no class in pex/resolvable.py defines
`__iter__` or `__getitem__`), and the just-added contributor guarantees the
generator is non-empty — so Python raises TypeError there instead. -/
def RSState.merge (st : RSState) (resolvable : Resolvable)
    (packages : List Package) : Except PyErr RSState :=
  match resolvable.nameOf with
  | Except.error e => Except.error e
  | Except.ok name =>
      let olds := lookupD st.resolvables name
      let rs' := if resolvable ∈ olds then olds else olds ++ [resolvable]
      let inter := sortedPy
        ((packages.dedup).filter (fun p => p ∈ lookupD st.packages name))
      if inter.isEmpty then Except.error PyErr.typeErr
      else Except.ok ⟨updateA st.resolvables name rs', updateA st.packages name inter⟩

/-- `merge` as called from the resolver loop, where the `packages` argument
is whatever `__package_iterator_cached` produced: `set(packages)` over a bare
package object raises TypeError. -/
def RSState.mergePy (st : RSState) (resolvable : Resolvable) :
    PyValue → Except PyErr RSState
  | PyValue.list ps => st.merge resolvable ps
  | PyValue.bare _ =>
      match resolvable.nameOf with
      | Except.error e => Except.error e
      | Except.ok _ => Except.error PyErr.typeErr

/-- `ResolvableSet.get` (lines 126-127): a copy of the current compatible
set (value semantics make the copy implicit). -/
def RSState.get (st : RSState) (name : String) : List Package :=
  lookupD st.packages name

/-- The dict comprehension of `ResolvableSet.select` (lines 129-131):
`packages[0]` per name; an empty list would raise IndexError. -/
def selectGo : List (String × List Package) →
    Except PyErr (List (String × Package))
  | [] => Except.ok []
  | (n, ps) :: rest =>
      match ps with
      | [] => Except.error PyErr.indexErr
      | p :: _ =>
          match selectGo rest with
          | Except.error e => Except.error e
          | Except.ok tail => Except.ok ((n, p) :: tail)

/-- `ResolvableSet.select`. -/
def RSState.select (st : RSState) : Except PyErr (List (String × Package)) :=
  selectGo st.packages

/-- `ResolvableSet.extras` (lines 133-134) executes
`set.union(set(resolvable.extras) for resolvable in ...)`.  `set.union` is
called on a generator object instead of a set, which raises TypeError
unconditionally (and `resolvable.extras` is a bound method, so even
`set(resolvable.extras)` would raise TypeError).  Every call fails. -/
def RSState.extrasE (_st : RSState) (_name : String) :
    Except PyErr (List String) :=
  Except.error PyErr.typeErr

/-! ### Resolver (pex/resolver.py lines 196-353)

External effects are supplied through `ResolverCfg`:
`compatible` is `package.compatible(interpreter.identity, platform)`;
`cacheIter` is the package list produced by iterating
`Iterator(fetchers=Fetcher([cache]))` for a requirement (note the source
passes a bare `Fetcher` where `Iterator` expects a list of fetchers);
`networkIter` is `options.get_iterator(name).iter`; `buildO` abstracts
`Resolver.build` — `context.fetch` plus `translator.translate` — whose
failure the source maps to `Untranslateable` (the source's `build` also reads
`self._distributions`, an attribute that `__init__` never creates — it
assigns the name-mangled `self.__distributions` — so a real call raises
AttributeError first; either way it never raises the ambiguity error). -/

/-- A materialized distribution: `requiresD` is
`distribution.requires(extras)`. -/
structure Distribution where
  distName : String
  requiresD : List String → List Requirement

structure ResolverCfg where
  compatible : Package → Bool
  cacheIter : Requirement → List Package
  networkIter : Requirement → List Package
  buildO : Package → Option Distribution
  cacheTtl : Option Nat
  mtime : Package → Nat
  now : Nat

/-- `Resolver.filter_packages_by_interpreter` (lines 206-208). -/
def filter_packages_by_interpreter (compatible : Package → Bool)
    (packages : List Package) : List Package :=
  packages.filter compatible

/-- The same list comprehension applied to a `packages` result of unknown
shape: iterating a bare package raises TypeError. -/
def filterPyByInterpreter (compatible : Package → Bool) :
    PyValue → Except PyErr (List Package)
  | PyValue.list ps => Except.ok (filter_packages_by_interpreter compatible ps)
  | PyValue.bare _ => Except.error PyErr.typeErr

/-- `StaticIterator.iter` (lines 34-41): the packages of the current
compatible set that satisfy the requirement. -/
def StaticIterator.iter (packages : List Package) (req : Requirement) :
    List Package :=
  packages.filter (fun p => p.satisfies req)

/-- The same list viewed through a bare-package result: unused shape
coerced. -/
def asList : PyValue → Except PyErr (List Package)
  | PyValue.list ps => Except.ok ps
  | PyValue.bare _ => Except.error PyErr.typeErr

/-- `Resolver.__package_iterator` (lines 261-269): when the set already has
candidates, iterate a `StaticIterator` over them; else take the network
pipeline from `self._options.get_iterator(resolvable.name)` — which reads
`resolvable.name` and therefore raises on a repository resolvable; then
filter by interpreter/platform. -/
def Resolver.package_iterator (cfg : ResolverCfg) (resolvable : Resolvable)
    (existing : List Package) : Except PyErr (List Package) :=
  if existing.isEmpty then
    match resolvable.nameOf with
    | Except.error e => Except.error e
    | Except.ok _ =>
        filterPyByInterpreter cfg.compatible
          (resolvable.packagesOf cfg.networkIter)
  else
    filterPyByInterpreter cfg.compatible
      (resolvable.packagesOf (StaticIterator.iter existing))

/-- Is the configured TTL truthy (`if self.__cache_ttl:`)? -/
def ttlTruthy : Option Nat → Bool
  | some t => t != 0
  | none => false

/-- `Resolver.__package_iterator_cached` (lines 271-284): iterate the
cache-only fetcher; if that is truthy and the resolvable is exact return it
as-is; else, with a TTL configured, return the TTL-filtered cache result if
non-empty; otherwise fall back to `__package_iterator`. -/
def Resolver.package_iterator_cached (cfg : ResolverCfg)
    (resolvable : Resolvable) (existing : List Package) :
    Except PyErr PyValue :=
  let packages := resolvable.packagesOf cfg.cacheIter
  if packages.truthy then
    if resolvable.exact then Except.ok packages
    else if ttlTruthy cfg.cacheTtl then
      match asList packages with
      | Except.error e => Except.error e
      | Except.ok ps =>
          let filtered := filter_packages_by_ttl cfg.mtime ps
            ((cfg.cacheTtl).getD 0) cfg.now
          if filtered.isEmpty then
            (Resolver.package_iterator cfg resolvable existing).map PyValue.list
          else Except.ok (PyValue.list filtered)
    else (Resolver.package_iterator cfg resolvable existing).map PyValue.list
  else (Resolver.package_iterator cfg resolvable existing).map PyValue.list

/-- The state threaded through `Resolver.resolve` (lines 328-331):
`resolvable_set`, `processed_resolvables`, `processed_packages`,
`distributions`.  Note that no statement of `resolve` ever writes
`processed_packages`; the embedding is faithful to that. -/
structure ResolveState where
  rset : RSState
  processed : List Resolvable
  processedPackages : List (String × Package)
  distributions : List Distribution

/-- `processed_packages[name]` lookup. -/
def lookupPP (l : List (String × Package)) (n : String) : Option Package :=
  (l.find? (fun kv => kv.1 == n)).map Prod.snd

/-- The inner `while resolvables:` drain (lines 334-341): pop, skip the
already-processed, compute the cached package iterator against the existing
compatible set, merge, mark processed. -/
def Resolver.drain (cfg : ResolverCfg) :
    List Resolvable → ResolveState → Except PyErr ResolveState
  | [], st => Except.ok st
  | r :: rest, st =>
      if r ∈ st.processed then Resolver.drain cfg rest st
      else
        match r.nameOf with
        | Except.error e => Except.error e
        | Except.ok name =>
            match Resolver.package_iterator_cached cfg r (st.rset.get name) with
            | Except.error e => Except.error e
            | Except.ok pv =>
                match st.rset.mergePy r pv with
                | Except.error e => Except.error e
                | Except.ok rset' =>
                    Resolver.drain cfg rest
                      { st with rset := rset', processed := st.processed ++ [r] }

/-- The select-and-expand loop of phase B (lines 343-351).  For each selected
`(name, package)`: when the name is in `processed_packages` with a different
package raise the ambiguity error (`self.Error('Ambiguous resolvable: ...')`)
and with the same package skip; otherwise build, extend the work list with
the distribution's requirements under the accumulated extras, and record the
distribution.  `processed_packages` is read but never written, exactly as in
the source. -/
def Resolver.selectLoop (cfg : ResolverCfg) :
    List (String × Package) → ResolveState → List Resolvable →
      Except PyErr (ResolveState × List Resolvable)
  | [], st, work => Except.ok (st, work)
  | (name, pkg) :: rest, st, work =>
      match lookupPP st.processedPackages name with
      | some prev =>
          if pkg = prev then Resolver.selectLoop cfg rest st work
          else Except.error PyErr.ambiguous
      | none =>
          match cfg.buildO pkg with
          | none => Except.error PyErr.untranslateable
          | some dist =>
              match st.rset.extrasE name with
              | Except.error e => Except.error e
              | Except.ok extras =>
                  Resolver.selectLoop cfg rest
                    { st with distributions := st.distributions ++ [dist] }
                    (work ++ (dist.requiresD extras).map Resolvable.requirement)

/-- The outer `while resolvables:` loop, with fuel standing in for Python's
unbounded iteration. -/
def Resolver.resolveLoop (cfg : ResolverCfg) :
    Nat → List Resolvable → ResolveState → Except PyErr (List Distribution)
  | 0, _, _ => Except.error PyErr.outOfFuel
  | fuel + 1, work, st =>
      if work.isEmpty then Except.ok st.distributions
      else
        match Resolver.drain cfg work st with
        | Except.error e => Except.error e
        | Except.ok st' =>
            match st'.rset.select with
            | Except.error e => Except.error e
            | Except.ok sel =>
                match Resolver.selectLoop cfg sel st' [] with
                | Except.error e => Except.error e
                | Except.ok (st'', work') =>
                    Resolver.resolveLoop cfg fuel work' st''

/-- The initial state of a `resolve` call. -/
def initResolveState : ResolveState := ⟨⟨[], []⟩, [], [], []⟩

/-- `Resolver.resolve` (lines 327-353).  Its first statement,
`resolvable_set = resolvable_set or ResolvableSet()`, reads the local
`resolvable_set` before any assignment (the parameter is named
`requirement_set`), so Python raises UnboundLocalError on entry for every
input; nothing below it ever runs. -/
def Resolver.resolve (_cfg : ResolverCfg) (_resolvables : List Resolvable) :
    Except PyErr (List Distribution) :=
  Except.error PyErr.unboundLocal

/-- The body of `Resolver.resolve` as it would execute were the first
statement the evident `requirement_set or ResolvableSet()` (every statement
from line 329 on translated from the source, including the never-written
`processed_packages`). -/
def Resolver.resolveRepaired (cfg : ResolverCfg) (fuel : Nat)
    (resolvables : List Resolvable) : Except PyErr (List Distribution) :=
  Resolver.resolveLoop cfg fuel resolvables initResolveState

/-- Does an embedded computation end in the ambiguity error? -/
def isAmbiguousErr {α : Type} : Except PyErr α → Bool
  | Except.error PyErr.ambiguous => true
  | _ => false

/-- Does an embedded computation end in `Unsatisfiable`? -/
def isUnsatErr {α : Type} : Except PyErr α → Bool
  | Except.error PyErr.unsatisfiable => true
  | _ => false

end Pex

namespace Pex

/-- C1: on a `ResolvableSet` that has not yet recorded a package set for the
resolvable's name, `merge(resolvable, packages)` fails for *every* package
list — including non-empty ones — because lines 120-121 intersect
`set(packages)` with the defaultdict's initial empty `__packages[name]`,
emptying the set instead of recording `P`; the failure is a TypeError
(the raise at lines 123-124 crashes while building the `Unsatisfiable`
message, mapping `str` over a non-iterable `Resolvable`).  Moreover `merge`
can never raise `Unsatisfiable` at all — for any state and arguments — so
`Unsatisfiable` is certainly not "raised exactly when intersecting `P` with
a previously recorded non-empty package set yields the empty set". -/
theorem merge_fresh_name_raises (st : RSState) (r : Resolvable)
    (ps : List Package) (name : String)
    (hname : r.nameOf = Except.ok name)
    (hfresh : lookupD st.packages name = []) :
    st.merge r ps = Except.error PyErr.typeErr ∧
      ∀ (st' : RSState) (r' : Resolvable) (ps' : List Package),
        isUnsatErr (st'.merge r' ps') = false := by
  constructor
  · unfold RSState.merge
    rw [hname]
    simp [hfresh, sortedPy]
  · intro st' r' ps'
    cases r' with
    | repository => rfl
    | package p =>
        unfold RSState.merge
        simp only [Resolvable.nameOf]
        split <;> rfl
    | requirement rq =>
        unfold RSState.merge
        simp only [Resolvable.nameOf]
        split <;> rfl

/-- Witness for `merge_fresh_name_raises`: the first `merge` on a fresh
`ResolvableSet` — the very call `test_resolvable_set` in
tests/test_resolver.py expects to succeed — fails with TypeError even
though the package list is non-empty, and no `merge` raises
`Unsatisfiable`. -/
theorem merge_fresh_name_raises_witness :
    (Resolvable.requirement ⟨"foo", [], []⟩).nameOf = Except.ok "foo" ∧
      lookupD (RSState.mk [] []).packages "foo" = [] ∧
      (RSState.merge ⟨[], []⟩ (Resolvable.requirement ⟨"foo", [], []⟩)
          [⟨"foo", 234, Variant.source, true⟩] =
          Except.error PyErr.typeErr ∧
        ∀ (st' : RSState) (r' : Resolvable) (ps' : List Package),
          isUnsatErr (st'.merge r' ps') = false) := by
  refine ⟨?_, rfl, ?_⟩
  · rfl
  · exact merge_fresh_name_raises ⟨[], []⟩ _ _ "foo" rfl rfl

/-- C4: for an exact resolvable (single `== version` specifier) whose
cache-only iteration yields at least one package,
`__package_iterator_cached` returns exactly those cached packages: the
result is `cfg.cacheIter req` for every configuration `cfg`, in particular
for every `networkIter`, so the network iterator pipeline is never
consulted. -/
theorem package_iterator_cached_exact (cfg : ResolverCfg) (req : Requirement)
    (v : Nat) (existing : List Package)
    (hexact : req.specs = [(SpecOp.eq, v)])
    (hne : cfg.cacheIter req ≠ []) :
    Resolver.package_iterator_cached cfg (Resolvable.requirement req)
        existing = Except.ok (PyValue.list (cfg.cacheIter req)) := by
  cases hps : cfg.cacheIter req with
  | nil => exact absurd hps hne
  | cons p rest =>
      unfold Resolver.package_iterator_cached
      simp [Resolvable.packagesOf, hps, PyValue.truthy, Resolvable.exact,
        requirement_is_exact, hexact]

/-- Witness for `package_iterator_cached_exact`: a cache holding
`foo-2.3.4` and an exact requirement `foo==2.3.4`; the result is the
cached package, with a network oracle that would have answered
differently. -/
theorem package_iterator_cached_exact_witness :
    (⟨"foo", [(SpecOp.eq, 234)], []⟩ : Requirement).specs =
        [(SpecOp.eq, 234)] ∧
      (fun _ : Requirement => [(⟨"foo", 234, Variant.source, true⟩ : Package)])
          (⟨"foo", [(SpecOp.eq, 234)], []⟩ : Requirement) ≠ [] ∧
      Resolver.package_iterator_cached
          ⟨fun _ => true,
           fun _ => [⟨"foo", 234, Variant.source, true⟩],
           fun _ => [⟨"bar", 1, Variant.wheel, false⟩],
           fun _ => none, none, fun _ => 0, 0⟩
          (Resolvable.requirement ⟨"foo", [(SpecOp.eq, 234)], []⟩) [] =
        Except.ok (PyValue.list [⟨"foo", 234, Variant.source, true⟩]) := by
  refine ⟨rfl, by decide, ?_⟩
  exact package_iterator_cached_exact _ _ 234 [] rfl (by decide)

/-! ### C2 support: the ambiguity error is unreachable

`processed_packages` is initialized to `{}` at line 330 and never written by
any statement of `resolve`, so the membership test guarding
`raise self.Error('Ambiguous resolvable: ...')` at lines 344-346 can never
succeed.  The lemmas below track that invariant through every stage and show
no stage can produce the ambiguity error. -/

theorem isAmbiguousErr_map {α β : Type} (f : α → β) (x : Except PyErr α) :
    isAmbiguousErr (x.map f) = isAmbiguousErr x := by
  cases x with
  | ok a => rfl
  | error e => cases e <;> rfl

theorem nameOf_not_amb (r : Resolvable) : isAmbiguousErr r.nameOf = false := by
  cases r <;> rfl

theorem package_iterator_not_amb (cfg : ResolverCfg) (r : Resolvable)
    (ex : List Package) :
    isAmbiguousErr (Resolver.package_iterator cfg r ex) = false := by
  unfold Resolver.package_iterator
  split
  · cases r <;> rfl
  · cases r <;> rfl

theorem package_iterator_cached_not_amb (cfg : ResolverCfg) (r : Resolvable)
    (ex : List Package) :
    isAmbiguousErr (Resolver.package_iterator_cached cfg r ex) = false := by
  cases r with
  | package p => rfl
  | repository =>
      show isAmbiguousErr
        ((Resolver.package_iterator cfg Resolvable.repository ex).map
          PyValue.list) = false
      rw [isAmbiguousErr_map]
      exact package_iterator_not_amb cfg _ ex
  | requirement rq =>
      unfold Resolver.package_iterator_cached
      cases hps : cfg.cacheIter rq with
      | nil =>
          simp only [Resolvable.packagesOf, hps, PyValue.truthy,
            List.isEmpty_nil, Bool.not_true, Bool.false_eq_true, if_false]
          rw [isAmbiguousErr_map]
          exact package_iterator_not_amb cfg _ ex
      | cons p rest =>
          simp only [Resolvable.packagesOf, hps, PyValue.truthy,
            List.isEmpty_cons, Bool.not_false, if_true]
          by_cases hex : (Resolvable.requirement rq).exact = true
          · rw [if_pos hex]
            rfl
          · rw [if_neg hex]
            by_cases httl : ttlTruthy cfg.cacheTtl = true
            · rw [if_pos httl]
              show isAmbiguousErr
                (match asList (PyValue.list (p :: rest)) with
                 | Except.error e => Except.error e
                 | Except.ok ps =>
                     let filtered := filter_packages_by_ttl cfg.mtime ps
                       ((cfg.cacheTtl).getD 0) cfg.now
                     if filtered.isEmpty then
                       (Resolver.package_iterator cfg
                         (Resolvable.requirement rq) ex).map PyValue.list
                     else Except.ok (PyValue.list filtered)) = false
              show isAmbiguousErr
                (if (filter_packages_by_ttl cfg.mtime (p :: rest)
                      ((cfg.cacheTtl).getD 0) cfg.now).isEmpty then
                   (Resolver.package_iterator cfg
                     (Resolvable.requirement rq) ex).map PyValue.list
                 else Except.ok (PyValue.list (filter_packages_by_ttl cfg.mtime
                   (p :: rest) ((cfg.cacheTtl).getD 0) cfg.now))) = false
              by_cases hfil : (filter_packages_by_ttl cfg.mtime (p :: rest)
                  ((cfg.cacheTtl).getD 0) cfg.now).isEmpty = true
              · rw [if_pos hfil, isAmbiguousErr_map]
                exact package_iterator_not_amb cfg _ ex
              · rw [if_neg hfil]
                rfl
            · rw [if_neg httl]
              rw [isAmbiguousErr_map]
              exact package_iterator_not_amb cfg _ ex

theorem merge_not_amb (st : RSState) (r : Resolvable) (ps : List Package) :
    isAmbiguousErr (st.merge r ps) = false := by
  cases r with
  | repository => rfl
  | package p =>
      unfold RSState.merge
      simp only [Resolvable.nameOf]
      split <;> rfl
  | requirement rq =>
      unfold RSState.merge
      simp only [Resolvable.nameOf]
      split <;> rfl

theorem mergePy_not_amb (st : RSState) (r : Resolvable) (v : PyValue) :
    isAmbiguousErr (st.mergePy r v) = false := by
  cases v with
  | list ps => exact merge_not_amb st r ps
  | bare p => cases r <;> rfl

theorem isAmbiguousErr_error {α : Type} (e : PyErr) :
    isAmbiguousErr (Except.error (α := α) e) = (e == PyErr.ambiguous) := by
  cases e <;> rfl

theorem drain_not_amb (cfg : ResolverCfg) :
    ∀ (rs : List Resolvable) (st : ResolveState),
      isAmbiguousErr (Resolver.drain cfg rs st) = false := by
  intro rs
  induction rs with
  | nil => intro st; rfl
  | cons r rest ih =>
      intro st
      unfold Resolver.drain
      by_cases hmem : r ∈ st.processed
      · rw [if_pos hmem]; exact ih st
      · rw [if_neg hmem]
        split
        · rename_i e heq
          rw [isAmbiguousErr_error]
          have hh := nameOf_not_amb r
          rw [heq, isAmbiguousErr_error] at hh
          exact hh
        · rename_i name heq
          split
          · rename_i e heq2
            rw [isAmbiguousErr_error]
            have hh := package_iterator_cached_not_amb cfg r (st.rset.get name)
            rw [heq2, isAmbiguousErr_error] at hh
            exact hh
          · rename_i pv heq2
            split
            · rename_i e heq3
              rw [isAmbiguousErr_error]
              have hh := mergePy_not_amb st.rset r pv
              rw [heq3, isAmbiguousErr_error] at hh
              exact hh
            · exact ih _

theorem drain_pp (cfg : ResolverCfg) :
    ∀ (rs : List Resolvable) (st st' : ResolveState),
      Resolver.drain cfg rs st = Except.ok st' →
        st'.processedPackages = st.processedPackages := by
  intro rs
  induction rs with
  | nil =>
      intro st st' h
      unfold Resolver.drain at h
      cases h
      rfl
  | cons r rest ih =>
      intro st st' h
      unfold Resolver.drain at h
      by_cases hmem : r ∈ st.processed
      · rw [if_pos hmem] at h; exact ih st st' h
      · rw [if_neg hmem] at h
        split at h
        · exact absurd h (by simp)
        · split at h
          · exact absurd h (by simp)
          · split at h
            · exact absurd h (by simp)
            · exact (ih _ _ h).trans rfl

theorem selectGo_not_amb :
    ∀ l : List (String × List Package), isAmbiguousErr (selectGo l) = false := by
  intro l
  induction l with
  | nil => rfl
  | cons e rest ih =>
      obtain ⟨n, ps⟩ := e
      cases ps with
      | nil => rfl
      | cons p more =>
          show isAmbiguousErr
            (match selectGo rest with
             | Except.error e => Except.error e
             | Except.ok tail => Except.ok ((n, p) :: tail)) = false
          split
          · rename_i e heq
            rw [isAmbiguousErr_error]
            have hh := ih
            rw [heq, isAmbiguousErr_error] at hh
            exact hh
          · rfl

theorem selectLoop_not_amb (cfg : ResolverCfg) :
    ∀ (sel : List (String × Package)) (st : ResolveState)
      (work : List Resolvable), st.processedPackages = [] →
        isAmbiguousErr (Resolver.selectLoop cfg sel st work) = false := by
  intro sel
  induction sel with
  | nil => intro st work _; rfl
  | cons e rest ih =>
      obtain ⟨name, pkg⟩ := e
      intro st work hp
      unfold Resolver.selectLoop
      split
      · rename_i prev heq
        rw [hp] at heq
        exact absurd heq (by simp [lookupPP])
      · split
        · rfl
        · rfl

theorem selectLoop_pp (cfg : ResolverCfg) :
    ∀ (sel : List (String × Package)) (st st' : ResolveState)
      (work work' : List Resolvable),
      Resolver.selectLoop cfg sel st work = Except.ok (st', work') →
        st'.processedPackages = st.processedPackages := by
  intro sel
  induction sel with
  | nil =>
      intro st st' work work' h
      unfold Resolver.selectLoop at h
      cases h
      rfl
  | cons e rest ih =>
      obtain ⟨name, pkg⟩ := e
      intro st st' work work' h
      unfold Resolver.selectLoop at h
      split at h
      · split at h
        · exact ih _ _ _ _ h
        · exact absurd h (by simp)
      · split at h
        · exact absurd h (by simp)
        · split at h
          · exact absurd h (by simp)
          · exact (ih _ _ _ _ h).trans rfl

theorem resolveLoop_not_amb (cfg : ResolverCfg) :
    ∀ (fuel : Nat) (work : List Resolvable) (st : ResolveState),
      st.processedPackages = [] →
        isAmbiguousErr (Resolver.resolveLoop cfg fuel work st) = false := by
  intro fuel
  induction fuel with
  | zero => intro work st _; rfl
  | succ n ih =>
      intro work st hp
      unfold Resolver.resolveLoop
      by_cases hw : work.isEmpty = true
      · rw [if_pos hw]; rfl
      · rw [if_neg hw]
        split
        · rename_i e heq
          rw [isAmbiguousErr_error]
          have hh := drain_not_amb cfg work st
          rw [heq, isAmbiguousErr_error] at hh
          exact hh
        · rename_i st' heq
          split
          · rename_i e heq2
            rw [isAmbiguousErr_error]
            have hh := selectGo_not_amb st'.rset.packages
            rw [show selectGo st'.rset.packages = st'.rset.select from rfl,
              heq2, isAmbiguousErr_error] at hh
            exact hh
          · rename_i sel heq2
            have hp' : st'.processedPackages = [] :=
              (drain_pp cfg work st st' heq).trans hp
            split
            · rename_i e heq3
              rw [isAmbiguousErr_error]
              have hh := selectLoop_not_amb cfg sel st' [] hp'
              rw [heq3, isAmbiguousErr_error] at hh
              exact hh
            · rename_i st'' work' heq3
              exact ih work' st''
                ((selectLoop_pp cfg sel st' st'' [] work' heq3).trans hp')

end Pex

namespace Pex

/-- C2: the ambiguity error is never raised.  `Resolver.resolve` raises
`UnboundLocalError` on entry for every input (its first statement reads the
local `resolvable_set` before assignment), so in particular it never raises
the ambiguity error; and even the repaired body (entry statement read as
`requirement_set or ResolvableSet()`) can never produce the
`'Ambiguous resolvable'` error for any configuration, fuel and work list,
because `processed_packages` is never written, so the guard
`resolvable_name in processed_packages` in the select-and-expand phase is
always false.  The claim's "raises AmbiguousResolvable when a name is
re-selected to a different package" is therefore false on the code; its
second half (no ambiguity error when every re-selection agrees) holds
vacuously. -/
theorem resolve_never_ambiguous :
    (∀ (cfg : ResolverCfg) (work : List Resolvable),
        Resolver.resolve cfg work = Except.error PyErr.unboundLocal) ∧
      ∀ (cfg : ResolverCfg) (fuel : Nat) (work : List Resolvable),
        isAmbiguousErr (Resolver.resolveRepaired cfg fuel work) = false := by
  constructor
  · intro cfg work; rfl
  · intro cfg fuel work
    exact resolveLoop_not_amb cfg fuel work initResolveState rfl

end Pex

namespace Pex

/-! ### The requirements.txt parser (pex/requirements.py lines 168-271)

`RequirementsTxt` keeps its own fetcher list (`__init__` seeds it with a
default `PyPIFetcher()`), appended to by `add_index`/`add_repo` and filtered
by `clear_indices`.  The filesystem recursion of `-r` and the
`Resolvable.get` string dispatch of the fallback branch are supplied as
parameters.  String helpers mirror Python's `str.strip`, `str.split('=')`
and `str.split()` over character lists. -/

/-- A configured fetcher: `PyPIFetcher()` (default index) is `pypi none`,
`PyPIFetcher(index)` is `pypi (some index)`, `Fetcher([repo])` is `repo`.
Modelled from the spec (pex/fetcher.py is not under src/): an index fetcher
wraps an index base, a repo fetcher wraps fixed base URLs. -/
inductive FetcherM
  | pypi (base : Option String)
  | repo (url : String)
deriving DecidableEq

/-- `isinstance(fetcher, PyPIFetcher)`. -/
def FetcherM.isPyPI : FetcherM → Bool
  | FetcherM.pypi _ => true
  | FetcherM.repo _ => false

/-- The builder state of `RequirementsTxt` (lines 249-253).  The resolvable
entries are `Option`s: requirements.py's own copy of `Resolvable.get`
(lines 47-57) has no fall-through raise — it returns `None` when every
registered form fails — and `add(None)` happily appends it. -/
structure ReqTxtState where
  resolvables : List (Option Resolvable)
  fetchers : List FetcherM
  allowAll : Bool
  allowExt : List String
deriving DecidableEq

/-- `RequirementsTxt.__init__` (lines 249-253): one default PyPI fetcher. -/
def ReqTxtState.init : ReqTxtState := ⟨[], [FetcherM.pypi none], false, []⟩

/-- `RequirementsTxt.add` (lines 255-256): a plain append, `None`
included. -/
def ReqTxtState.add (st : ReqTxtState) (r : Option Resolvable) : ReqTxtState :=
  { st with resolvables := st.resolvables ++ [r] }

/-- `RequirementsTxt.add_index` (lines 258-259): *appends*
`PyPIFetcher(index)` to the fetcher list. -/
def ReqTxtState.add_index (st : ReqTxtState) (index : String) : ReqTxtState :=
  { st with fetchers := st.fetchers ++ [FetcherM.pypi (some index)] }

/-- `RequirementsTxt.add_repo` (lines 261-262). -/
def ReqTxtState.add_repo (st : ReqTxtState) (repo : String) : ReqTxtState :=
  { st with fetchers := st.fetchers ++ [FetcherM.repo repo] }

/-- `RequirementsTxt.clear_indices` (lines 264-265): drop every
`PyPIFetcher`. -/
def ReqTxtState.clear_indices (st : ReqTxtState) : ReqTxtState :=
  { st with fetchers := st.fetchers.filter (fun f => !f.isPyPI) }

/-- Modelled from the spec: `safe_name(name).lower()` — non-alphanumeric
runs (other than dots) become a single `-`, then lowercased. -/
def safeNameLowerChars : List Char → Bool → List Char
  | [], _ => []
  | c :: rest, prevSep =>
      if c.isAlphanum || c == '.' then c.toLower :: safeNameLowerChars rest false
      else if prevSep then safeNameLowerChars rest true
      else '-' :: safeNameLowerChars rest true

def safeNameLower (s : String) : String :=
  String.mk (safeNameLowerChars s.data false)

/-- `RequirementsTxt.allow_external` (lines 270-271): add the canonicalized
name to the allow-set. -/
def ReqTxtState.allow_external (st : ReqTxtState) (n : String) : ReqTxtState :=
  { st with allowExt :=
      if safeNameLower n ∈ st.allowExt then st.allowExt
      else st.allowExt ++ [safeNameLower n] }

/-- `RequirementsTxt.allow_all_external` (lines 267-268). -/
def ReqTxtState.allow_all_external (st : ReqTxtState) : ReqTxtState :=
  { st with allowAll := true }

/-- Split a character list at every character satisfying `p`, keeping empty
pieces (Python's `str.split(sep)` behaviour for a one-character separator
when `p` matches just that character). -/
def splitPredAux (p : Char → Bool) : List Char → List Char → List (List Char)
  | [], acc => [acc.reverse]
  | d :: rest, acc =>
      if p d then acc.reverse :: splitPredAux p rest []
      else splitPredAux p rest (d :: acc)

def splitPred (p : Char → Bool) (s : String) : List String :=
  (splitPredAux p s.data []).map String.mk

/-- Python `str.strip()`. -/
def trimPy (s : String) : String :=
  String.mk
    (((s.data.dropWhile Char.isWhitespace).reverse.dropWhile
      Char.isWhitespace).reverse)

/-- `RequirementsTxt._get_parameter` (lines 177-184): split on `=`; when that
does not give exactly two fields, split on whitespace; when that also fails,
raise `UnsupportedLine`; else return the second field. -/
def get_parameter (line : String) : Except PyErr String :=
  let sline := splitPred (fun c => c == '=') line
  let sline := if sline.length == 2 then sline
    else (splitPred Char.isWhitespace line).filter (fun s => !s.data.isEmpty)
  match sline with
  | [_, p] => Except.ok p
  | _ => Except.error PyErr.unsupportedLine

/-- `RequirementsTxt._process_one_line` (lines 186-216), with the `-r`
file recursion as `processR` and the `Resolvable.get` string dispatch of the
fallback branch as `getRes` (its `from_string` parsers are outside this
module; `ok none` is the None that requirements.py's `Resolvable.get`
returns on fall-through, an `error` is an exception other than
`InvalidRequirement` escaping a parser).  The `--allow-unverified` branch
executes `TRACER.log(...)`, but requirements.py never imports `TRACER`, so
Python raises NameError there.  Note that `-i `, `--index-url` and
`--extra-index-url` share one branch and all call `add_index`. -/
def process_one_line (getRes : String → Except PyErr (Option Resolvable))
    (processR : String → ReqTxtState → Except PyErr ReqTxtState)
    (st : ReqTxtState) (line0 : String) : Except PyErr ReqTxtState :=
  let line := trimPy line0
  if line.data.isEmpty || strStarts line "#" then Except.ok st
  else if strStarts line "-e " then Except.error PyErr.unsupportedLine
  else if strStarts line "-i " || strStarts line "--index-url" ||
      strStarts line "--extra-index-url" then
    match get_parameter line with
    | Except.error e => Except.error e
    | Except.ok param => Except.ok (st.add_index param)
  else if strStarts line "-f " || strStarts line "--find-links" then
    match get_parameter line with
    | Except.error e => Except.error e
    | Except.ok param => Except.ok (st.add_repo param)
  else if strStarts line "--allow-external" then
    match get_parameter line with
    | Except.error e => Except.error e
    | Except.ok param => Except.ok (st.allow_external param)
  else if strStarts line "--allow-all-external" then
    Except.ok st.allow_all_external
  else if strStarts line "--allow-unverified" then Except.error PyErr.nameErr
  else if strStarts line "--no-index" then Except.ok st.clear_indices
  else if strStarts line "-r " || strStarts line "--requirement" then
    match get_parameter line with
    | Except.error e => Except.error e
    | Except.ok param => processR param st
  else
    match getRes line with
    | Except.error e => Except.error e
    | Except.ok r => Except.ok (st.add r)

end Pex

namespace Pex

/-- C9 counterexample: processing `-i https://example.com/repo/` on a fresh
builder does *not* leave that URL as the sole index — the default PyPI
fetcher configured by `__init__` is still present, because the `-i` branch
calls `add_index`, which appends. -/
theorem index_url_not_sole_cx :
    process_one_line (fun _ => Except.error PyErr.invalidRequirement)
        (fun _ st => Except.ok st) ReqTxtState.init
        "-i https://example.com/repo/" =
      Except.ok (ReqTxtState.mk []
        [FetcherM.pypi none, FetcherM.pypi (some "https://example.com/repo/")]
        false []) ∧
      FetcherM.pypi none ∈
        [FetcherM.pypi none,
          FetcherM.pypi (some "https://example.com/repo/")] ∧
      ([FetcherM.pypi none,
          FetcherM.pypi (some "https://example.com/repo/")] =
        [FetcherM.pypi (some "https://example.com/repo/")]) = False := by
  refine ⟨rfl, by decide, by simp⟩

/-- C9 (amended): `-i <url>`, `--index-url=<url>` and
`--extra-index-url=<url>` all behave identically: each appends a
`PyPIFetcher(url)` to the builder's fetcher list, keeping every previously
configured index (none sets a sole index); `add_index` itself is a pure
append. -/
theorem index_directives_append
    (getRes : String → Except PyErr (Option Resolvable))
    (processR : String → ReqTxtState → Except PyErr ReqTxtState)
    (st : ReqTxtState) :
    process_one_line getRes processR st "-i https://example.com/repo/" =
        Except.ok (st.add_index "https://example.com/repo/") ∧
      process_one_line getRes processR st
          "--index-url=https://example.com/repo/" =
        Except.ok (st.add_index "https://example.com/repo/") ∧
      process_one_line getRes processR st
          "--extra-index-url=https://example.com/repo/" =
        Except.ok (st.add_index "https://example.com/repo/") ∧
      ∀ u : String, (st.add_index u).fetchers =
        st.fetchers ++ [FetcherM.pypi (some u)] := by
  exact ⟨rfl, rfl, rfl, fun u => rfl⟩

end Pex

namespace Pex

/-! ### `Context.fetch` (pex/http.py lines 59-73)

The filesystem is a list of `(path, file)` pairs; a file carries its bytes
and mtime.  `self.open(link)` (the transfer, including the md5-validating
stream wrapper) is represented by the `fetched` bytes together with the
returned `opened` flag: `false` means the link was never opened — no bytes
were transferred and no integrity check ran. -/

structure FileRec where
  content : List Nat
  fmtime : Nat
deriving DecidableEq

def lookupFile (fs : List (String × FileRec)) (path : String) :
    Option FileRec :=
  (fs.find? (fun kv => kv.1 == path)).map Prod.snd

def removeFile (fs : List (String × FileRec)) (path : String) :
    List (String × FileRec) :=
  fs.filter (fun kv => kv.1 != path)

/-- `Context.fetch(link, into)`: `target = join(into, link.filename)`; if
`target` exists, return it immediately; otherwise open the link, write the
bytes to the temp sibling `target.<uuid4>` and `os.rename` it over the
target.  The returned flag records whether `self.open` was invoked. -/
def Context.fetch (fs : List (String × FileRec)) (filename : String)
    (fetched : List Nat) (uuid : String) (newMtime : Nat) (into : String) :
    List (String × FileRec) × String × Bool :=
  let target := into ++ "/" ++ filename
  match lookupFile fs target with
  | some _ => (fs, target, false)
  | none =>
      let tmp := target ++ "." ++ uuid
      let fs1 := (tmp, FileRec.mk fetched newMtime) :: fs
      let fs2 := (target, FileRec.mk fetched newMtime) :: removeFile fs1 tmp
      (fs2, target, true)

/-- C10: when a file with the link's filename already exists at the
destination, `Context.fetch` returns that existing path with the filesystem
untouched (so the existing file's bytes and mtime are unchanged) and the
link unopened (no bytes transferred, no md5 integrity check). -/
theorem fetch_existing_short_circuits (fs : List (String × FileRec))
    (filename : String) (fetched : List Nat) (uuid : String)
    (newMtime : Nat) (into : String) (f : FileRec)
    (h : lookupFile fs (into ++ "/" ++ filename) = some f) :
    Context.fetch fs filename fetched uuid newMtime into =
      (fs, into ++ "/" ++ filename, false) := by
  simp [Context.fetch, h]

/-- Witness for `fetch_existing_short_circuits`: a destination already
holding `dest/pkg.tar.gz`; fetch returns it unchanged without opening the
link. -/
theorem fetch_existing_short_circuits_witness :
    lookupFile [("dest/pkg.tar.gz", FileRec.mk [1, 2] 5)] "dest/pkg.tar.gz" =
        some (FileRec.mk [1, 2] 5) ∧
      Context.fetch [("dest/pkg.tar.gz", FileRec.mk [1, 2] 5)] "pkg.tar.gz"
          [9, 9] "uuid4" 77 "dest" =
        ([("dest/pkg.tar.gz", FileRec.mk [1, 2] 5)], "dest/pkg.tar.gz",
          false) := by
  refine ⟨by decide, ?_⟩
  exact fetch_existing_short_circuits _ "pkg.tar.gz" [9, 9] "uuid4" 77 "dest"
    (FileRec.mk [1, 2] 5) (by decide)

end Pex

namespace Pex

/-! ### The PEP 426 environment-marker evaluator (pex/pep426.py)

Faithful embedding of `tokenize`, `_split_statements`, `_reduce_statements`,
`eval_marker`, `eval_expr`, `eval_subexpr` and `evaluate`.  `ValueError`,
`IndexError` and `AttributeError` paths all land in `Except.error ()`.  The
mutual recursion of `eval_marker`/`eval_expr` is bounded by fuel; `evaluate`
supplies more fuel than any token stream can consume. -/

/-- The `Token` values: operators (`Token.OPERATORS`) plus grouping and the
boolean connectives (`Token.OTHER`). -/
inductive TokOp
  | notIn
  | inOp
  | opEq
  | opNe
  | opLe
  | opGe
  | opLt
  | opGt
  | lparen
  | rparen
  | andOp
  | orOp
deriving DecidableEq

/-- `Token.is_operator`: membership in `Token.OPERATORS`. -/
def TokOp.is_operator : TokOp → Bool
  | TokOp.lparen => false
  | TokOp.rparen => false
  | TokOp.andOp => false
  | TokOp.orOp => false
  | _ => true

/-- A lexed token: a `String` object (literal or substituted sub-expression
value) or a `Token`. -/
inductive Tok
  | str (s : String)
  | op (o : TokOp)
deriving DecidableEq

/-- The marker snapshot: the named record of the ten `PEP426_EXPRS`
sub-expressions. -/
structure PEP426Marker where
  python_version : String
  python_full_version : String
  os_name : String
  sys_platform : String
  platform_release : String
  platform_version : String
  platform_machine : String
  platform_python_implementation : String
  implementation_name : String
  implementation_version : String

/-- `PEP426_EXPRS` in declaration order: sub-expression names with their
accessors (`getattr(marker, subexpr, '')`). -/
def pep426Exprs : List (List Char × (PEP426Marker → String)) :=
  [("python_version".data, fun m => m.python_version),
   ("python_full_version".data, fun m => m.python_full_version),
   ("os_name".data, fun m => m.os_name),
   ("sys_platform".data, fun m => m.sys_platform),
   ("platform_release".data, fun m => m.platform_release),
   ("platform_version".data, fun m => m.platform_version),
   ("platform_machine".data, fun m => m.platform_machine),
   ("platform_python_implementation".data,
     fun m => m.platform_python_implementation),
   ("implementation_name".data, fun m => m.implementation_name),
   ("implementation_version".data, fun m => m.implementation_version)]

/-- `Token.ALL`: all token spellings, longest first
(`reversed(sorted(OPERATORS + OTHER, key=len))`, a stable sort — this list
is that exact order). -/
def tokenAll : List (List Char × TokOp) :=
  [("not in".data, TokOp.notIn),
   ("and".data, TokOp.andOp),
   ("or".data, TokOp.orOp),
   (">=".data, TokOp.opGe),
   ("<=".data, TokOp.opLe),
   ("!=".data, TokOp.opNe),
   ("==".data, TokOp.opEq),
   ("in".data, TokOp.inOp),
   (")".data, TokOp.rparen),
   ("(".data, TokOp.lparen),
   (">".data, TokOp.opGt),
   ("<".data, TokOp.opLt)]

/-- Index of the first occurrence of a character (`str.find` from a given
start, relative). -/
def idxOfChar (q : Char) : List Char → Option Nat
  | [] => none
  | c :: rest => if c == q then some 0 else (idxOfChar q rest).map (· + 1)

/-- `tokenize(marker, string)` (pep426.py lines 101-134) over characters,
with fuel equal to the remaining length (each step consumes at least one
character).  In order: skip a single space; substitute a sub-expression
name; read a quoted literal (unterminated quote raises); match the longest
token; otherwise raise. -/
def tokenizeAux (m : PEP426Marker) : Nat → List Char → Except Unit (List Tok)
  | _, [] => Except.ok []
  | 0, _ :: _ => Except.error ()
  | fuel + 1, c :: rest =>
      if c == ' ' then tokenizeAux m fuel rest
      else
        match pep426Exprs.find? (fun e => listStarts (c :: rest) e.1) with
        | some e =>
            (tokenizeAux m fuel ((c :: rest).drop e.1.length)).map
              (Tok.str (e.2 m) :: ·)
        | none =>
            if c == '\'' || c == '"' then
              match idxOfChar c rest with
              | none => Except.error ()
              | some k =>
                  (tokenizeAux m fuel (rest.drop (k + 1))).map
                    (Tok.str (String.mk (rest.take k)) :: ·)
            else
              match tokenAll.find? (fun e => listStarts (c :: rest) e.1) with
              | some e =>
                  (tokenizeAux m fuel ((c :: rest).drop e.1.length)).map
                    (Tok.op e.2 :: ·)
              | none => Except.error ()

def tokenize (m : PEP426Marker) (s : String) : Except Unit (List Tok) :=
  tokenizeAux m s.data.length s.data

/-- Python truthiness of a string: `bool('')` is false. -/
def pyBool (s : String) : Bool := !s.data.isEmpty

/-- An element of the `statements` stream built by `_split_statements`:
a truth value or one of the `and`/`or` Token objects. -/
inductive Stmt
  | b (x : Bool)
  | sAnd
  | sOr
deriving DecidableEq

/-- Python truthiness of a statements element (`Token` objects are truthy;
only relevant to `any(statements[::2])`). -/
def Stmt.truthy : Stmt → Bool
  | Stmt.b x => x
  | _ => true

/-- `statements[::2]`. -/
def everyOther : List Stmt → List Stmt
  | [] => []
  | [x] => [x]
  | x :: _ :: rest => x :: everyOther rest

/-- The splice `statements[k-1:k+2] = [statements[k-1] and statements[k+1]]`
of `_reduce_statements`.  For the alternating bool/token streams
`_split_statements` produces, `k ≥ 1` and both neighbours are bools; the
other shapes (Python would splice through a negative index, raise
IndexError, or apply `and` to a Token) are unreachable and are read as
errors. -/
def spliceAt (l : List Stmt) (k : Nat) : Except Unit (List Stmt) :=
  if k == 0 then Except.error ()
  else
    match l.get? (k - 1), l.get? (k + 1) with
    | some (Stmt.b x), some (Stmt.b y) =>
        Except.ok (l.take (k - 1) ++ [Stmt.b (x && y)] ++ l.drop (k + 2))
    | _, _ => Except.error ()

/-- One iteration of the `for k in reversed(range(len(statements)))` loop:
read `statements[k]` (IndexError when out of range) and splice when it is
`Token('and')`. -/
def reduceStep (l : List Stmt) (k : Nat) : Except Unit (List Stmt) :=
  match l.get? k with
  | none => Except.error ()
  | some Stmt.sAnd => spliceAt l k
  | some _ => Except.ok l

/-- The loop of `_reduce_statements`, `k` descending to `0`; the range is
over the *original* length while the list shrinks, exactly as in Python. -/
def reduceLoop (l : List Stmt) : Nat → Except Unit (List Stmt)
  | 0 => reduceStep l 0
  | k + 1 =>
      match reduceStep l (k + 1) with
      | Except.error e => Except.error e
      | Except.ok l' => reduceLoop l' k

/-- `_reduce_statements` (lines 137-143): fold all `and`s right to left,
then `any(statements[::2])`. -/
def reduce_statements (stmts : List Stmt) : Except Unit Bool :=
  match stmts.length with
  | 0 => Except.ok ((everyOther stmts).any Stmt.truthy)
  | n + 1 =>
      match reduceLoop stmts n with
      | Except.error e => Except.error e
      | Except.ok final => Except.ok ((everyOther final).any Stmt.truthy)

/-- Python's substring test `needle in hay`. -/
def listInfix (needle : List Char) : List Char → Bool
  | [] => listStarts [] needle
  | c :: rest => listStarts (c :: rest) needle || listInfix needle rest

/-- `eval_subexpr_op` (lines 216-233).  String comparison is lexicographic
(Python compares code points); `in`/`not in` are substring tests. -/
def eval_subexpr_op (a : String) (o : TokOp) (b : String) :
    Except Unit Bool :=
  match o with
  | TokOp.opEq => Except.ok (a == b)
  | TokOp.opNe => Except.ok (a != b)
  | TokOp.opLe => Except.ok (decide (a ≤ b))
  | TokOp.opGe => Except.ok (decide (b ≤ a))
  | TokOp.opGt => Except.ok (decide (b < a))
  | TokOp.opLt => Except.ok (decide (a < b))
  | TokOp.inOp => Except.ok (listInfix a.data b.data)
  | TokOp.notIn => Except.ok (!listInfix a.data b.data)
  | _ => Except.error ()

/-- `eval_subexpr` (lines 194-213): a `String` atom, optionally applied to a
comparison operator and a second atom.  `tokens[1].is_operator()` on a
`String` object raises AttributeError in Python (the `String` class defines
no such method). -/
def eval_subexpr (tokens : List Tok) : Except Unit (Bool × Nat) :=
  match tokens with
  | [] => Except.error ()
  | Tok.op _ :: _ => Except.error ()
  | Tok.str a :: restT =>
      match restT with
      | [] => Except.ok (pyBool a, 1)
      | Tok.str _ :: _ => Except.error ()
      | Tok.op o :: rest2 =>
          if !o.is_operator then Except.ok (pyBool a, 1)
          else
            match rest2 with
            | [] => Except.error ()
            | Tok.op _ :: _ => Except.error ()
            | Tok.str b :: _ =>
                match eval_subexpr_op a o b with
                | Except.error e => Except.error e
                | Except.ok v => Except.ok (v, 3)

mutual

/-- `eval_marker` (lines 176-178): split into a statements stream, then
reduce. -/
def eval_marker (fuel : Nat) (tokens : List Tok) :
    Except Unit (Bool × Nat) :=
  match fuel with
  | 0 => Except.error ()
  | fuel + 1 =>
      match splitLoop fuel tokens 0 [] with
      | Except.error e => Except.error e
      | Except.ok (stmts, off) =>
          match reduce_statements stmts with
          | Except.error e => Except.error e
          | Except.ok v => Except.ok (v, off)

/-- The loop of `_split_statements` (lines 146-173): evaluate an expression
at the current offset, append its truth value, stop at end of stream (or
past it: `ValueError`), and continue past an `and`/`or` connective,
otherwise break (presumed RPAREN). -/
def splitLoop (fuel : Nat) (tokens : List Tok) (off0 : Nat)
    (stmts0 : List Stmt) : Except Unit (List Stmt × Nat) :=
  match fuel with
  | 0 => Except.error ()
  | fuel + 1 =>
      match eval_expr fuel (tokens.drop off0) with
      | Except.error e => Except.error e
      | Except.ok (value, consumed) =>
          let off := off0 + consumed
          let stmts := stmts0 ++ [Stmt.b value]
          if tokens.length == off then Except.ok (stmts, off)
          else if tokens.length < off then Except.error ()
          else
            match tokens.get? off with
            | some (Tok.op TokOp.andOp) =>
                splitLoop fuel tokens (off + 1) (stmts ++ [Stmt.sAnd])
            | some (Tok.op TokOp.orOp) =>
                splitLoop fuel tokens (off + 1) (stmts ++ [Stmt.sOr])
            | _ => Except.ok (stmts, off)

/-- `eval_expr` (lines 181-191): a parenthesised marker (checking the
closing RPAREN at `tokens[offset+1]`, IndexError when absent) or a
sub-expression. -/
def eval_expr (fuel : Nat) (tokens : List Tok) : Except Unit (Bool × Nat) :=
  match fuel with
  | 0 => Except.error ()
  | fuel + 1 =>
      match tokens with
      | [] => Except.error ()
      | Tok.op o :: rest =>
          if o == TokOp.lparen then
            match eval_marker fuel rest with
            | Except.error e => Except.error e
            | Except.ok (value, off) =>
                match tokens.get? (off + 1) with
                | some (Tok.op TokOp.rparen) => Except.ok (value, off + 2)
                | some _ => Except.error ()
                | none => Except.error ()
          else Except.error ()
      | Tok.str _ :: _ => eval_subexpr tokens

end

/-- The evaluation phase of `evaluate` after tokenization, with ample fuel
(every recursive call both consumes fuel and moves through the finite token
stream, so any fuel past `4 * length + 4` is never exhausted on streams the
tokenizer produces). -/
def evalTokens (ts : List Tok) : Except Unit Bool :=
  match eval_marker (4 * ts.length + 4) ts with
  | Except.error e => Except.error e
  | Except.ok (v, _) => Except.ok v

/-- `evaluate(marker, expression)` (lines 236-252). -/
def evaluate (m : PEP426Marker) (expr : String) : Except Unit Bool :=
  match tokenize m expr with
  | Except.error e => Except.error e
  | Except.ok ts => evalTokens ts

end Pex

namespace Pex

/-- C7: `and` binds tighter than `or`.  At the token level — an atom
tokenizes to a `String` token holding either the quoted literal or the
marker's sub-expression value, so quantifying over the three `String` values
covers every atom and every marker snapshot — the stream
`A or B and C` evaluates exactly like `A or ( B and C )`, namely to
`bool(A) or (bool(B) and bool(C))`; and through the full pipeline,
`evaluate(m, "'' or '' and 'true'")` is false for every marker `m`, equal to
`evaluate(m, "'' or ('' and 'true')")`. -/
theorem marker_and_binds_tighter :
    (∀ a b c : String,
      evalTokens [Tok.str a, Tok.op TokOp.orOp, Tok.str b, Tok.op TokOp.andOp,
          Tok.str c] =
        evalTokens [Tok.str a, Tok.op TokOp.orOp, Tok.op TokOp.lparen,
          Tok.str b, Tok.op TokOp.andOp, Tok.str c, Tok.op TokOp.rparen]) ∧
      (∀ a b c : String,
        evalTokens [Tok.str a, Tok.op TokOp.orOp, Tok.str b,
            Tok.op TokOp.andOp, Tok.str c] =
          Except.ok (pyBool a || (pyBool b && pyBool c))) ∧
      ∀ m : PEP426Marker,
        evaluate m "'' or '' and 'true'" = Except.ok false ∧
          evaluate m "'' or ('' and 'true')" = Except.ok false := by
  refine ⟨?_, ?_, fun m => ⟨rfl, rfl⟩⟩
  · intro a b c
    have hL : evalTokens [Tok.str a, Tok.op TokOp.orOp, Tok.str b,
        Tok.op TokOp.andOp, Tok.str c] =
        Except.ok (pyBool a || (pyBool b && pyBool c || false)) := rfl
    have hR : evalTokens [Tok.str a, Tok.op TokOp.orOp, Tok.op TokOp.lparen,
        Tok.str b, Tok.op TokOp.andOp, Tok.str c, Tok.op TokOp.rparen] =
        Except.ok (pyBool a || ((pyBool b && pyBool c || false) || false)) :=
      rfl
    rw [hL, hR]
    simp
  · intro a b c
    have hL : evalTokens [Tok.str a, Tok.op TokOp.orOp, Tok.str b,
        Tok.op TokOp.andOp, Tok.str c] =
        Except.ok (pyBool a || (pyBool b && pyBool c || false)) := rfl
    rw [hL]
    simp

end Pex
